import Mathlib

set_option linter.unnecessarySeqFocus false

/-!
Verification of the ALEX Terminal desktop client (alex_client.py,
alex_terminal.py, autonomous.py, voice_engine.py) against its
natural-language specification.

The Python modules are shallowly embedded below.  External effects
(HTTP requests, subprocess invocations, the file system, the OpenAI
API) are parameters of the embedded functions: each embedded `run`
takes an environment record describing the outcome of every external
call it makes, and returns the observable behaviour (emitted Qt
signals, final file contents, uncaught exceptions).
-/

namespace AlexTerminal

/-- Python/JSON values, as produced by `json.loads`.  Numbers are
modelled as integers; none of the verified code does arithmetic on
JSON numbers, only truthiness tests. -/
inductive Json where
  | null
  | bool (b : Bool)
  | num (n : Int)
  | str (s : String)
  | arr (elems : List Json)
  | obj (fields : List (String × Json))

/-- Python exceptions that the embedded code can raise and that its
`except` clauses discriminate on. -/
inductive PyError where
  | attributeError   -- e.g. calling .get on a non-dict
  | typeError        -- e.g. item assignment on a non-dict
deriving DecidableEq, Repr

/-- The message `str(e)` would give for an embedded exception (the
exact CPython wording is irrelevant to every claim; only which except
clause catches the exception matters). -/
def PyError.message : PyError → String
  | .attributeError => "AttributeError"
  | .typeError => "TypeError"

/-- First-match lookup in a JSON object's field list (dict lookup;
`json.loads` produces unique keys). -/
def lookupField : List (String × Json) → String → Option Json
  | [], _ => none
  | (k, v) :: rest, key => if k = key then some v else lookupField rest key

/-- Python `d.get(key, default)`: field lookup with default on a dict,
`AttributeError` on any non-dict value. -/
def Json.pyGet : Json → String → Json → Except PyError Json
  | .obj fields, key, default =>
      match lookupField fields key with
      | some v => .ok v
      | none => .ok default
  | _, _, _ => .error .attributeError

/-- Python truthiness of a JSON value. -/
def Json.truthy : Json → Bool
  | .null => false
  | .bool b => b
  | .num n => n != 0
  | .str s => !s.isEmpty
  | .arr elems => !elems.isEmpty
  | .obj fields => !fields.isEmpty

/-- Python truthiness of an optional string (`os.getenv` result):
`None` and the empty string are falsy. -/
def strOptFalsy : Option String → Bool
  | none => true
  | some s => s.isEmpty

/-! ## autonomous.py — AutonomousPoller -/

/-- State of the local queue file `~/.alex/terminal-queue.json`:
`none` if the file does not exist, `some (.error ())` if reading or
JSON-parsing its content fails (`OSError` / `json.JSONDecodeError`),
`some (.ok j)` if its content parses to the JSON value `j`. -/
abbrev QueueState := Option (Except Unit Json)

/-- One pass of the `for msg in ...` loop bodies in
`AutonomousPoller._poll`: for each message, in order,
`title = msg.get("title", "ALEX")`,
`body = msg.get("body", msg.get("text", ""))`, and
`message_received.emit(title, body)` when `body` is truthy.
Returns the emitted `(title, body)` pairs and the exception, if any,
at which the loop aborted (`.get` on a non-dict element). -/
def emitLoop : List Json → List (Json × Json) × Option PyError
  | [] => ([], none)
  | m :: rest =>
      match m.pyGet "title" (.str "ALEX") with
      | .error e => ([], some e)
      | .ok title =>
          match m.pyGet "text" (.str "") with
          | .error e => ([], some e)
          | .ok inner =>
              match m.pyGet "body" inner with
              | .error e => ([], some e)
              | .ok body =>
                  let tail := emitLoop rest
                  if body.truthy then ((title, body) :: tail.1, tail.2)
                  else tail

/-- Outcome of one `_poll` tick: the `(title, body)` pairs emitted via
`message_received`, the final queue-file state, and the exception, if
any, that escaped `_poll` uncaught. -/
structure PollResult where
  events : List (Json × Json)
  file : QueueState
  uncaught : Option PyError

/-- Step 2 of `AutonomousPoller._poll`: the file-queue block.  If the
file exists and parses to a non-empty list, the file is overwritten
with `"[]"` first and the list's messages are then emitted.  The
`except` clause catches only `json.JSONDecodeError` and `OSError`, so
an `AttributeError` raised by `.get` inside the loop escapes. -/
def pollFileStep (file : QueueState) : List (Json × Json) × QueueState × Option PyError :=
  match file with
  | none => ([], none, none)                    -- QUEUE_FILE.exists() is False
  | some (.error e) => ([], some (.error e), none)  -- read/parse failed: caught
  | some (.ok data) =>
      match data with
      | .arr msgs =>
          if msgs.isEmpty then ([], some (.ok data), none)  -- `and data` falsy
          else
            let emitted := emitLoop msgs
            (emitted.1, some (.ok (.arr [])), emitted.2)    -- file cleared first
      | j => ([], some (.ok j), none)           -- isinstance(data, list) is False

/-- `AutonomousPoller._poll`.  `remote` is the list returned by
`get_terminal_messages()` (that method catches its own network errors
and returns `[]` on failure).  Step 1's `except Exception: pass`
swallows any exception from its loop; step 2 is `pollFileStep`. -/
def AutonomousPoller_poll (remote : List Json) (file : QueueState) : PollResult :=
  let remoteEvents := (emitLoop remote).1       -- exception, if any, swallowed
  let fileOut := pollFileStep file
  ⟨remoteEvents ++ fileOut.1, fileOut.2.1, fileOut.2.2⟩

/-! ## alex_client.py — AlexClient.send_message -/

/-- Outcome of the `requests.post` call (plus `resp.json()`) inside
`send_message`: a response arrived with status code `status` and a
body that `resp.json()` either parses (`.ok`) or fails on (`.error m`,
`m` being `str(e)` of the raised exception, which is caught by the
generic `except Exception` clause); or the request raised
`requests.Timeout`, `requests.ConnectionError`, or some other
exception with message `m`. -/
inductive HttpOutcome where
  | response (status : Nat) (body : Except String Json)
  | timeout
  | connectionError
  | otherExc (m : String)

/-- `AlexClient.send_message`.  Returns the Python pair
`(response_text, error_string)`, each component `none` when the code
returns Python `None` there.  Note the short-circuit in
`resp.status_code == 200 and data.get("success")`: `.get` is only
reached when the status is 200. -/
def send_message (outcome : HttpOutcome) : Option Json × Option Json :=
  match outcome with
  | .timeout => (none, some (.str "Request timed out"))
  | .connectionError => (none, some (.str "Cannot connect to ALEX"))
  | .otherExc m => (none, some (.str m))
  | .response status body =>
      match body with
      | .error m => (none, some (.str m))   -- resp.json() raised; generic except
      | .ok data =>
          let success : Except PyError Bool :=
            if status = 200 then (data.pyGet "success" .null).map Json.truthy
            else .ok false
          match success with
          | .error e => (none, some (.str e.message))  -- caught by except Exception
          | .ok true =>
              match data.pyGet "response" (.str "") with
              | .ok r => (some r, none)
              | .error e => (none, some (.str e.message))
          | .ok false =>
              match data.pyGet "error" (.str ("HTTP " ++ toString status)) with
              | .ok err => (none, some err)
              | .error e => (none, some (.str e.message))

/-! ## alex_terminal.py — HealthCheckWorker -/

/-- Signals a `HealthCheckWorker` run can emit: `connected` with the
health payload, or `failed`. -/
inductive HealthSignal where
  | connected (payload : Json)
  | failed

/-- Truthiness of `health_check()`'s return value (a parsed JSON
payload, or `None` on any failure). -/
def healthTruthy : Option Json → Bool
  | none => false
  | some j => j.truthy

/-- The `for i in range(self.retries)` loop of `HealthCheckWorker.run`,
with `check i` the result of the i-th `health_check()` call.
Returns the emitted signals and the number of health checks performed.
`time.sleep` between attempts is untimed here. -/
def healthLoop (check : Nat → Option Json) (i : Nat) : Nat → List HealthSignal × Nat
  | 0 => ([.failed], 0)
  | fuel + 1 =>
      match check i with
      | some j =>
          if j.truthy then ([.connected j], 1)
          else
            let rest := healthLoop check (i + 1) fuel
            (rest.1, rest.2 + 1)
      | none =>
          let rest := healthLoop check (i + 1) fuel
          (rest.1, rest.2 + 1)

/-- `HealthCheckWorker.run` with the configured attempt count
`retries`: signals emitted, and number of `health_check()` calls. -/
def HealthCheckWorker_run (check : Nat → Option Json) (retries : Nat) :
    List HealthSignal × Nat :=
  healthLoop check 0 retries

/-! ## voice_engine.py — constants and config helpers -/

/-- `MIN_AUDIO_SIZE = 1000` (bytes, filters out silence). -/
def MIN_AUDIO_SIZE : Nat := 1000

/-- State of `~/.alex/terminal-config.json`: `none` if absent,
`some (.error ())` if reading or parsing raises, `some (.ok j)` if its
content parses to the JSON value `j`. -/
abbrev ConfigState := Option (Except Unit Json)

/-- `_load_config`: the parsed config file, or `{}` when the file does
not exist or reading/parsing raises (`except Exception: pass`). -/
def _load_config : ConfigState → Json
  | some (.ok j) => j
  | some (.error _) => .obj []
  | none => .obj []

/-- `get_voice_enabled`: `_load_config().get("voice_enabled", True)`.
Raises `AttributeError` when the config file holds valid JSON that is
not an object. -/
def get_voice_enabled (st : ConfigState) : Except PyError Json :=
  (_load_config st).pyGet "voice_enabled" (.bool true)

/-- Python dict assignment `d[key] = v` on an object's field list:
update in place if the key exists, else append. -/
def setField : List (String × Json) → String → Json → List (String × Json)
  | [], key, v => [(key, v)]
  | (k, w) :: rest, key, v =>
      if k = key then (k, v) :: rest else (k, w) :: setField rest key v

/-- `set_voice_enabled(enabled)`: loads the config, assigns
`cfg["voice_enabled"] = enabled`, saves.  Item assignment on a
non-dict raises `TypeError`; `_save_config` swallows write errors
(`writeOk = false` leaves the file unchanged). -/
def set_voice_enabled (st : ConfigState) (enabled : Bool) (writeOk : Bool) :
    Except PyError ConfigState :=
  match _load_config st with
  | .obj fields =>
      if writeOk then .ok (some (.ok (.obj (setField fields "voice_enabled" (.bool enabled)))))
      else .ok st
  | _ => .error .typeError

/-- One voice toggle as claim C9 words it: `set_voice_enabled` applied
to the Python negation of `get_voice_enabled()` (writes succeeding). -/
def toggle_voice (st : ConfigState) : Except PyError ConfigState :=
  match get_voice_enabled st with
  | .error e => .error e
  | .ok v => set_voice_enabled st (!v.truthy) true

/-! ## voice_engine.py — TTSWorker -/

/-- Outcome of a `subprocess.run([player, ...], check=True, timeout=60)`
call: the player ran and exited 0; the binary was absent
(`FileNotFoundError`); it exited non-zero (`subprocess.CalledProcessError`,
message `m`); or it overran the timeout (`subprocess.TimeoutExpired`,
message `m` — not caught by the inner playback handlers). -/
inductive PlayerOutcome where
  | ok
  | notFound
  | nonzeroExit (m : String)
  | timedOut (m : String)

/-- Environment of one `TTSWorker.run`: the `OPENAI_API_KEY` value,
the outcome of `audio.speech.create` (`.error m` = exception with
message `m`, `.ok c` = audio content `c`), the detected Bluetooth
sink, and the outcomes of the `mpg123` and `ffplay` invocations
(`ffplay` is consulted only if `mpg123` is absent or exits non-zero). -/
structure TTSEnv where
  api_key : Option String
  synth : Except String String
  bt_sink : Option String
  mpg123 : PlayerOutcome
  ffplay : PlayerOutcome

/-- Signals a `TTSWorker` run can emit. -/
inductive TTSEvent where
  | finished
  | error (m : String)
deriving DecidableEq, Repr

/-- What a worker run did to its temporary audio file: `none` if the
file was never created, `some b` if it was created and `b` says
whether it still exists when the run terminates. -/
abbrev TmpFile := Option Bool

/-- The `finally` clause `if os.path.exists(tmp_path): os.unlink(tmp_path)`
applied to the temp-file state. -/
def finallyUnlink : TmpFile → TmpFile
  | none => none
  | some ex => some (if ex then false else ex)

/-- `TTSWorker.run`.  Playback: `mpg123` first; on `FileNotFoundError`
or `CalledProcessError` fall back to `ffplay`; `ffplay`'s handler
catches only `FileNotFoundError` (emitting the no-player error), so a
`CalledProcessError` or `TimeoutExpired` from `ffplay` — or a
`TimeoutExpired` from `mpg123` — propagates to the outer
`except Exception`, which emits `str(e)` after the `finally` clause
deletes the file; `finished` is then not emitted. -/
def TTSWorker_run (env : TTSEnv) : List TTSEvent × TmpFile :=
  if strOptFalsy env.api_key then
    ([.error "OpenAI API key not configured"], none)
  else
    match env.synth with
    | .error m => ([.error m], none)       -- speech.create raised, no file yet
    | .ok _content =>
        -- NamedTemporaryFile created and written: the file exists
        let afterPlay : List TTSEvent × Option String :=
          match env.mpg123 with
          | .ok => ([], none)
          | .timedOut m => ([], some m)    -- not caught by the inner handler
          | .notFound =>
              match env.ffplay with
              | .ok => ([], none)
              | .notFound => ([.error "No audio player found (install mpg123 or ffmpeg)"], none)
              | .nonzeroExit m => ([], some m)
              | .timedOut m => ([], some m)
          | .nonzeroExit _ =>
              match env.ffplay with
              | .ok => ([], none)
              | .notFound => ([.error "No audio player found (install mpg123 or ffmpeg)"], none)
              | .nonzeroExit m => ([], some m)
              | .timedOut m => ([], some m)
        let tmpAfter := finallyUnlink (some true)
        match afterPlay with
        | (evs, none) => (evs ++ [.finished], tmpAfter)
        | (evs, some m) => (evs ++ [.error m], tmpAfter)

/-! ## voice_engine.py — STTWorker -/

/-- Outcome of the `arecord` invocation
(`subprocess.run(cmd, capture_output=True, timeout=MIC_DURATION + 3)`,
no `check=True`): the process completed with `returncode` and decoded
`stderr`, or the call raised (e.g. `subprocess.TimeoutExpired`) with
message `m`, caught only by the outer `except Exception`. -/
inductive RecordOutcome where
  | completed (returncode : Int) (stderr : String)
  | raised (m : String)

/-- Environment of one `STTWorker.run`: the `OPENAI_API_KEY` value,
the `arecord` outcome, whether the recorded file exists afterwards and
its size in bytes, and the outcome of
`audio.transcriptions.create` (`.error m` = exception, `.ok t` =
`transcript.text`). -/
structure STTEnv where
  api_key : Option String
  record : RecordOutcome
  file_exists : Bool
  file_size : Nat
  transcribe : Except String String

/-- Signals an `STTWorker` run can emit. -/
inductive STTEvent where
  | recording_started
  | recording_stopped
  | error (m : String)
  | transcription_ready (text : String)
deriving DecidableEq, Repr

/-- Result of one `STTWorker.run`: the signals emitted in order, the
temp-file state at termination, and whether
`audio.transcriptions.create` was called. -/
structure STTResult where
  events : List STTEvent
  tmp : TmpFile
  calledTranscribe : Bool

/-- `STTWorker.run`.  The temp .wav file is created (and exists) as
soon as `NamedTemporaryFile` returns; the `finally` clause unlinks it
if it still exists.  A non-zero `arecord` exit emits
`"Recording failed: <stderr>"`; a missing or sub-`MIN_AUDIO_SIZE` file
emits `"No speech detected"`; a transcript shorter than 2 characters
after `.strip()` emits `"No speech detected"`; otherwise
`transcription_ready` carries the stripped text. -/
def STTWorker_run (env : STTEnv) : STTResult :=
  if strOptFalsy env.api_key then
    ⟨[.error "OpenAI API key not configured"], none, false⟩
  else
    match env.record with
    | .raised m =>
        -- recording_started was emitted; subprocess.run raised before
        -- recording_stopped; outer except emits str(e), finally unlinks.
        ⟨[.recording_started, .error m], finallyUnlink (some true), false⟩
    | .completed returncode stderr =>
        if returncode ≠ 0 then
          ⟨[.recording_started, .recording_stopped,
            .error ("Recording failed: " ++ stderr)],
           finallyUnlink (some true), false⟩
        else if !env.file_exists || env.file_size < MIN_AUDIO_SIZE then
          ⟨[.recording_started, .recording_stopped, .error "No speech detected"],
           finallyUnlink (some env.file_exists), false⟩
        else
          match env.transcribe with
          | .error m =>
              ⟨[.recording_started, .recording_stopped, .error m],
               finallyUnlink (some true), true⟩
          | .ok t =>
              let text := t.trim
              if text.length < 2 then
                ⟨[.recording_started, .recording_stopped, .error "No speech detected"],
                 finallyUnlink (some true), true⟩
              else
                ⟨[.recording_started, .recording_stopped, .transcription_ready text],
                 finallyUnlink (some true), true⟩

/-! ## Predicates and composites used by the claim statements -/

/-- A well-formed queue message, as claim C1 uses the term: a JSON
object carrying a string `"title"` and a non-empty string `"body"`. -/
def isWellFormedMsg : Json → Bool
  | .obj fields =>
      (match lookupField fields "title" with
       | some (.str _) => true
       | _ => false)
      &&
      (match lookupField fields "body" with
       | some (.str b) => !b.isEmpty
       | _ => false)
  | _ => false

/-- The title `msg.get("title", "ALEX")` yields on a dict message. -/
def msgTitle : Json → Json
  | .obj fields => (lookupField fields "title").getD (.str "ALEX")
  | _ => .str "ALEX"

/-- The body `msg.get("body", msg.get("text", ""))` yields on a dict
message. -/
def msgBody : Json → Json
  | .obj fields =>
      (lookupField fields "body").getD ((lookupField fields "text").getD (.str ""))
  | _ => .str ""

/-- Whether a successfully read queue-file content parses to a
non-empty JSON list (the condition `isinstance(data, list) and data`
guarding the drain-and-emit branch). -/
def parsesToNonemptyList : Except Unit Json → Bool
  | .ok (.arr msgs) => !msgs.isEmpty
  | _ => false

/-- Two successive voice toggles (claim C9). -/
def toggle_twice (st : ConfigState) : Except PyError ConfigState :=
  match toggle_voice st with
  | .error e => .error e
  | .ok st1 => toggle_voice st1

/-- The voice flag read back after a (possibly failed) state change. -/
def get_after : Except PyError ConfigState → Except PyError Json
  | .error e => .error e
  | .ok st => get_voice_enabled st

/-! ## Concrete instances used by witnesses and counterexamples -/

/-- A single well-formed queue message. -/
def msgW : Json := .obj [("title", .str "Heartbeat"), ("body", .str "All systems go")]

/-- Health-check results for the C4 witness: the second attempt
returns a truthy payload, every other attempt fails. -/
def ckC4 : Nat → Option Json :=
  fun k => if k = 1 then some (.obj [("ok", .bool true)]) else none

/-- STT environment for the C5 counterexample: the recorder exits 1. -/
def sttEnvC5 : STTEnv :=
  ⟨some "k", .completed 1 "boom", true, 2000, .ok "hello"⟩

/-- STT environment for the C6 witness: recorder exits 0 but the file
is below `MIN_AUDIO_SIZE`. -/
def sttEnvC6 : STTEnv :=
  ⟨some "k", .completed 0 "", true, 10, .ok "hello"⟩

/-- TTS environment for the C7 witness: neither player installed. -/
def ttsEnvC7 : TTSEnv :=
  ⟨some "k", .ok "audio-bytes", none, .notFound, .notFound⟩

/-- TTS environment for the C8 witness: fully successful run. -/
def ttsEnvC8 : TTSEnv :=
  ⟨some "k", .ok "audio-bytes", none, .ok, .ok⟩

/-- STT environment for the C8 witness: the recording succeeds and the
transcription call raises, so the run takes an error path after the
temp file was created. -/
def sttEnvC8 : STTEnv :=
  ⟨some "k", .completed 0 "", true, 2000, .error "API unreachable"⟩

/-- Config state for the C9 counterexample: the persisted flag is the
truthy non-boolean string "yes". -/
def cfgYes : ConfigState := some (.ok (.obj [("voice_enabled", .str "yes")]))

/-- `cfgYes` after one toggle. -/
def cfgYes1 : ConfigState := some (.ok (.obj [("voice_enabled", .bool false)]))

/-- `cfgYes` after two toggles. -/
def cfgYes2 : ConfigState := some (.ok (.obj [("voice_enabled", .bool true)]))

/-! ## Helper lemmas -/

theorem pyGet_obj (fields : List (String × Json)) (key : String) (d : Json) :
    (Json.obj fields).pyGet key d = .ok ((lookupField fields key).getD d) := by
  unfold Json.pyGet
  cases h : lookupField fields key <;> simp [h]

theorem lookupField_setField (fields : List (String × Json)) (key : String) (v : Json) :
    lookupField (setField fields key v) key = some v := by
  induction fields with
  | nil => simp [setField, lookupField]
  | cons kv rest ih =>
      obtain ⟨k, w⟩ := kv
      by_cases hk : k = key
      · simp [setField, lookupField, hk]
      · simp [setField, lookupField, hk, ih]

/-! ## C10 -/

/-- C10: when the configuration file is absent, unreadable or
malformed (so reading/parsing raises and `_load_config` returns `{}`),
or holds an object lacking the `voice_enabled` key,
`get_voice_enabled` returns `True`: voice output defaults to
enabled. -/
theorem C10_voice_default_enabled (st : ConfigState)
    (h : st = none ∨ st = some (.error ()) ∨
         ∃ fields, st = some (.ok (.obj fields)) ∧
           lookupField fields "voice_enabled" = none) :
    get_voice_enabled st = .ok (.bool true) := by
  rcases h with rfl | rfl | ⟨fields, rfl, hf⟩
  · rfl
  · rfl
  · simp [get_voice_enabled, _load_config, pyGet_obj, hf]

/-- Witness for C10 at the absent-file state. -/
theorem C10_voice_default_enabled_witness :
    ((none : ConfigState) = none ∨ (none : ConfigState) = some (.error ()) ∨
      ∃ fields, (none : ConfigState) = some (.ok (.obj fields)) ∧
        lookupField fields "voice_enabled" = none) ∧
    get_voice_enabled none = .ok (.bool true) :=
  ⟨Or.inl rfl, C10_voice_default_enabled none (Or.inl rfl)⟩

/-! ## C2 -/

/-- C2 as stated is false: content that is well-formed JSON but not a
list of message objects — here the list `[1]` — is "malformed" in the
claim's sense, yet one poll tick clears the file to `[]` (so the
content is changed) and the `.get` call on the non-dict element raises
an `AttributeError` that the `except (json.JSONDecodeError, OSError)`
clause does not catch, crashing the polling loop. -/
theorem C2_counterexample :
    (AutonomousPoller_poll [] (some (.ok (.arr [.num 1])))).file =
        some (.ok (.arr [])) ∧
    Json.arr [] ≠ Json.arr [Json.num 1] ∧
    (AutonomousPoller_poll [] (some (.ok (.arr [.num 1])))).uncaught =
        some .attributeError ∧
    (AutonomousPoller_poll [] (some (.ok (.arr [.num 1])))).events = [] :=
  ⟨rfl, by simp, rfl, rfl⟩

/-- C2 amended: if the queue file's content does not parse as JSON at
all, or parses to anything other than a non-empty JSON list, then one
poll tick (with no remote messages) emits zero events, leaves the file
content unchanged, and raises nothing. -/
theorem C2_malformed_no_crash (x : Except Unit Json)
    (h : parsesToNonemptyList x = false) :
    AutonomousPoller_poll [] (some x) = ⟨[], some x, none⟩ := by
  rcases x with e | j
  · rfl
  · cases j with
    | arr msgs =>
        cases msgs with
        | nil => rfl
        | cons m rest => simp [parsesToNonemptyList] at h
    | null => rfl
    | bool b => rfl
    | num n => rfl
    | str s => rfl
    | obj fields => rfl

/-- Witness for the amended C2 at unparseable content. -/
theorem C2_malformed_no_crash_witness :
    parsesToNonemptyList (.error ()) = false ∧
    AutonomousPoller_poll [] (some (.error ())) = ⟨[], some (.error ()), none⟩ :=
  ⟨rfl, C2_malformed_no_crash (.error ()) rfl⟩

/-! ## C3 -/

/-- C3 as stated is false: a 200 response whose body is
`{"success": true}` makes `send_message` return `("", None)` — the
response text is the empty string and the error is `None`, so neither
component is non-empty. -/
theorem C3_counterexample :
    send_message (.response 200 (.ok (.obj [("success", .bool true)]))) =
      (some (.str ""), none) ∧
    (Json.str "").truthy = false :=
  ⟨rfl, rfl⟩

/-- C3 amended: exactly one component of the returned pair is
non-null — a success returns `(text, None)` (the text may be empty), a
failure returns `(None, error)` — and a timeout, a connection failure,
and any other exception produce the separate error messages
`"Request timed out"`, `"Cannot connect to ALEX"`, and the
exception's own message. -/
theorem C3_exactly_one_non_null (o : HttpOutcome) :
    ((send_message o).1.isSome ↔ (send_message o).2 = none) ∧
    send_message .timeout = (none, some (.str "Request timed out")) ∧
    send_message .connectionError = (none, some (.str "Cannot connect to ALEX")) ∧
    "Request timed out" ≠ "Cannot connect to ALEX" ∧
    (∀ m, send_message (.otherExc m) = (none, some (.str m))) := by
  refine ⟨?_, rfl, rfl, by decide, fun m => rfl⟩
  cases o with
  | timeout => simp [send_message]
  | connectionError => simp [send_message]
  | otherExc m => simp [send_message]
  | response status body =>
      cases body with
      | error m => simp [send_message]
      | ok data =>
          by_cases hs : status = 200
          · subst hs
            cases hg : data.pyGet "success" .null with
            | error e => simp [send_message, hg, Except.map]
            | ok v =>
                cases hv : v.truthy
                · cases hr : data.pyGet "error" (.str ("HTTP " ++ toString 200)) with
                  | error e => simp [send_message, hg, hv, hr, Except.map]
                  | ok errv => simp [send_message, hg, hv, hr, Except.map]
                · cases hr : data.pyGet "response" (.str "") with
                  | error e => simp [send_message, hg, hv, hr, Except.map]
                  | ok r => simp [send_message, hg, hv, hr, Except.map]
          · cases hr : data.pyGet "error" (.str ("HTTP " ++ toString status)) with
            | error e => simp [send_message, hs, hr]
            | ok errv => simp [send_message, hs, hr]

theorem finallyUnlink_some (b : Bool) : finallyUnlink (some b) = some false := by
  cases b <;> rfl

/-! ## C5 -/

/-- C5 as stated is false: when `arecord` exits non-zero, the run
emits `"Recording failed: <stderr>"`, not the no-speech-detected
error (it does skip transcription). -/
theorem C5_counterexample :
    (STTWorker_run sttEnvC5).events =
      [.recording_started, .recording_stopped, .error "Recording failed: boom"] ∧
    STTEvent.error "No speech detected" ∉ (STTWorker_run sttEnvC5).events ∧
    (STTWorker_run sttEnvC5).calledTranscribe = false :=
  ⟨rfl, by decide, rfl⟩

/-- C5 amended: whenever the recorder process exits with a non-zero
code (and an API key is configured), the run emits the error
`"Recording failed: "` followed by the recorder's stderr — a message
distinct from the no-speech error — and never calls the
transcription endpoint. -/
theorem C5_nonzero_exit_recording_failed (env : STTEnv) (rc : Int) (stderr : String)
    (hkey : strOptFalsy env.api_key = false)
    (hrec : env.record = .completed rc stderr) (hrc : rc ≠ 0) :
    (STTWorker_run env).events =
      [.recording_started, .recording_stopped,
       .error ("Recording failed: " ++ stderr)] ∧
    (STTWorker_run env).calledTranscribe = false := by
  simp [STTWorker_run, hkey, hrec, hrc]

/-- Witness for the amended C5. -/
theorem C5_nonzero_exit_recording_failed_witness :
    strOptFalsy sttEnvC5.api_key = false ∧ (1 : Int) ≠ 0 ∧
    ((STTWorker_run sttEnvC5).events =
      [.recording_started, .recording_stopped,
       .error ("Recording failed: " ++ "boom")] ∧
     (STTWorker_run sttEnvC5).calledTranscribe = false) :=
  ⟨rfl, by decide,
   C5_nonzero_exit_recording_failed sttEnvC5 1 "boom" rfl rfl (by decide)⟩

/-! ## C6 -/

/-- C6: if the recorder exits 0 but the recorded file is missing or
smaller than `MIN_AUDIO_SIZE` (1000 bytes), the run emits
"No speech detected" and never calls the transcription endpoint. -/
theorem C6_small_recording_no_speech (env : STTEnv) (stderr : String)
    (hkey : strOptFalsy env.api_key = false)
    (hrec : env.record = .completed 0 stderr)
    (hsmall : env.file_exists = false ∨ env.file_size < MIN_AUDIO_SIZE) :
    (STTWorker_run env).events =
      [.recording_started, .recording_stopped, .error "No speech detected"] ∧
    (STTWorker_run env).calledTranscribe = false := by
  rcases hsmall with hex | hsz
  · simp [STTWorker_run, hkey, hrec, hex]
  · simp [STTWorker_run, hkey, hrec, hsz]

/-- Witness for C6 at a 10-byte recording. -/
theorem C6_small_recording_no_speech_witness :
    strOptFalsy sttEnvC6.api_key = false ∧ sttEnvC6.file_size < MIN_AUDIO_SIZE ∧
    ((STTWorker_run sttEnvC6).events =
      [.recording_started, .recording_stopped, .error "No speech detected"] ∧
     (STTWorker_run sttEnvC6).calledTranscribe = false) :=
  ⟨rfl, by decide,
   C6_small_recording_no_speech sttEnvC6 "" rfl rfl (Or.inr (by decide))⟩

/-! ## C7 -/

/-- C7: when neither `mpg123` nor `ffplay` exists
(`FileNotFoundError` from both), a TTS run emits the
"No audio player found" error rather than completing silently. -/
theorem C7_no_audio_player (env : TTSEnv) (c : String)
    (hkey : strOptFalsy env.api_key = false)
    (hs : env.synth = .ok c) (h1 : env.mpg123 = .notFound)
    (h2 : env.ffplay = .notFound) :
    (TTSWorker_run env).1 =
      [.error "No audio player found (install mpg123 or ffmpeg)", .finished] ∧
    TTSEvent.error "No audio player found (install mpg123 or ffmpeg)"
      ∈ (TTSWorker_run env).1 := by
  constructor
  · simp [TTSWorker_run, hkey, hs, h1, h2]
  · simp [TTSWorker_run, hkey, hs, h1, h2]

/-- Witness for C7. -/
theorem C7_no_audio_player_witness :
    strOptFalsy ttsEnvC7.api_key = false ∧
    ((TTSWorker_run ttsEnvC7).1 =
      [.error "No audio player found (install mpg123 or ffmpeg)", .finished] ∧
     TTSEvent.error "No audio player found (install mpg123 or ffmpeg)"
       ∈ (TTSWorker_run ttsEnvC7).1) :=
  ⟨rfl, C7_no_audio_player ttsEnvC7 "audio-bytes" rfl rfl rfl rfl⟩

/-! ## C8 -/

/-- C8: whenever a TTS run or an STT run created its temporary audio
file (`tmp ≠ none`), that file no longer exists when the run
terminates (`tmp = some false`): the `finally` clauses delete it on
the successful path and on every error path. -/
theorem C8_tmp_file_always_deleted (te : TTSEnv) (se : STTEnv) :
    ((TTSWorker_run te).2 ≠ none → (TTSWorker_run te).2 = some false) ∧
    ((STTWorker_run se).tmp ≠ none → (STTWorker_run se).tmp = some false) := by
  constructor
  · intro h
    cases hk : strOptFalsy te.api_key with
    | true => simp [TTSWorker_run, hk] at h
    | false =>
        cases hs : te.synth with
        | error m => simp [TTSWorker_run, hk, hs] at h
        | ok c =>
            cases h1 : te.mpg123 <;> cases h2 : te.ffplay <;>
              simp [TTSWorker_run, hk, hs, h1, h2, finallyUnlink]
  · intro h
    cases hk : strOptFalsy se.api_key with
    | true => simp [STTWorker_run, hk] at h
    | false =>
        cases hrec : se.record with
        | raised m => simp [STTWorker_run, hk, hrec, finallyUnlink]
        | completed rc stderr =>
            by_cases hrc : rc ≠ 0
            · simp [STTWorker_run, hk, hrec, hrc, finallyUnlink]
            · cases hex : se.file_exists <;>
                by_cases hsz : se.file_size < MIN_AUDIO_SIZE <;>
                  cases htr : se.transcribe <;>
                    simp [STTWorker_run, hk, hrec, hrc, hex, hsz, htr,
                          finallyUnlink_some] <;>
                      split <;> simp [finallyUnlink_some]

/-- Witness for C8: a successful TTS run and a successful STT run both
end with the temp file created and deleted. -/
theorem C8_tmp_file_always_deleted_witness :
    (TTSWorker_run ttsEnvC8).2 = some false ∧
    (STTWorker_run sttEnvC8).tmp = some false :=
  ⟨(C8_tmp_file_always_deleted ttsEnvC8 sttEnvC8).1 (by decide),
   (C8_tmp_file_always_deleted ttsEnvC8 sttEnvC8).2 (by decide)⟩

/-! ## C4 — healthLoop lemmas -/

theorem healthLoop_calls_le (check : Nat → Option Json) (i fuel : Nat) :
    (healthLoop check i fuel).2 ≤ fuel := by
  induction fuel generalizing i with
  | zero => simp [healthLoop]
  | succ k ih =>
      simp only [healthLoop]
      cases check i with
      | none => simpa using Nat.succ_le_succ (ih (i + 1))
      | some j =>
          cases hj : j.truthy
          · simpa [hj] using Nat.succ_le_succ (ih (i + 1))
          · simp [hj]

theorem healthLoop_one_signal (check : Nat → Option Json) (i fuel : Nat) :
    (healthLoop check i fuel).1.length = 1 := by
  induction fuel generalizing i with
  | zero => rfl
  | succ k ih =>
      simp only [healthLoop]
      cases check i with
      | none => simpa using ih (i + 1)
      | some j => cases hj : j.truthy <;> simp [hj, ih (i + 1)]

theorem healthLoop_all_fail (check : Nat → Option Json) :
    ∀ (fuel i : Nat), (∀ k, k < fuel → healthTruthy (check (i + k)) = false) →
      healthLoop check i fuel = ([.failed], fuel) := by
  intro fuel
  induction fuel with
  | zero => intro i _; rfl
  | succ n ih =>
      intro i h
      have h0 : healthTruthy (check i) = false := by simpa using h 0 (Nat.succ_pos n)
      have hrest : healthLoop check (i + 1) n = ([.failed], n) := by
        refine ih (i + 1) (fun k hk => ?_)
        have h' := h (k + 1) (by omega)
        rwa [show i + (k + 1) = (i + 1) + k by omega] at h'
      simp only [healthLoop]
      cases hc : check i with
      | none => simp [hrest]
      | some j =>
          have hj : j.truthy = false := by simpa [healthTruthy, hc] using h0
          simp [hj, hrest]

theorem healthLoop_first_success (check : Nat → Option Json) :
    ∀ (k fuel i : Nat), k < fuel →
      (∀ j, j < k → healthTruthy (check (i + j)) = false) →
      ∀ jv, check (i + k) = some jv → jv.truthy = true →
        healthLoop check i fuel = ([.connected jv], k + 1) := by
  intro k
  induction k with
  | zero =>
      intro fuel i hk hfail jv hc ht
      cases fuel with
      | zero => omega
      | succ m =>
          simp only [healthLoop]
          rw [show i + 0 = i by omega] at hc
          simp [hc, ht]
  | succ k ih =>
      intro fuel i hk hfail jv hc ht
      cases fuel with
      | zero => omega
      | succ m =>
          have h0 : healthTruthy (check i) = false := by
            simpa using hfail 0 (Nat.succ_pos k)
          have hrest : healthLoop check (i + 1) m = ([.connected jv], k + 1) := by
            refine ih m (i + 1) (by omega) (fun j hj => ?_) jv ?_ ht
            · have h' := hfail (j + 1) (by omega)
              rwa [show i + (j + 1) = (i + 1) + j by omega] at h'
            · rwa [show i + (k + 1) = (i + 1) + k by omega] at hc
          simp only [healthLoop]
          cases hci : check i with
          | none => simp [hrest]
          | some j =>
              have hj : j.truthy = false := by simpa [healthTruthy, hci] using h0
              simp [hj, hrest]

/-! ## C4 -/

/-- C4: for every attempt count N >= 1, a health-check worker run
performs at most N health checks, signals `connected` with the payload
of the first truthy check — after k failures and one success it has
made exactly k+1 calls — signals `failed` exactly when all N attempts
fail (making exactly N calls), and emits exactly one signal per
run. -/
theorem C4_health_check_retries (check : Nat → Option Json) (N : Nat) (_hN : 1 ≤ N) :
    (HealthCheckWorker_run check N).2 ≤ N ∧
    (HealthCheckWorker_run check N).1.length = 1 ∧
    (∀ k, k < N → (∀ j, j < k → healthTruthy (check j) = false) →
      ∀ jv, check k = some jv → jv.truthy = true →
        HealthCheckWorker_run check N = ([.connected jv], k + 1)) ∧
    ((∀ k, k < N → healthTruthy (check k) = false) →
      HealthCheckWorker_run check N = ([.failed], N)) := by
  refine ⟨healthLoop_calls_le check 0 N, healthLoop_one_signal check 0 N, ?_, ?_⟩
  · intro k hk hfail jv hc ht
    have h := healthLoop_first_success check k N 0 hk
      (fun j hj => by simpa using hfail j hj) jv (by simpa using hc) ht
    simpa [HealthCheckWorker_run] using h
  · intro h
    have h2 := healthLoop_all_fail check N 0 (fun k hk => by simpa using h k hk)
    simpa [HealthCheckWorker_run] using h2

/-- Witness for C4: the second of three configured attempts succeeds,
so exactly two health checks are made and `connected` is signalled. -/
theorem C4_health_check_retries_witness :
    1 ≤ 3 ∧
    HealthCheckWorker_run ckC4 3 = ([.connected (.obj [("ok", .bool true)])], 2) :=
  ⟨by decide,
   (C4_health_check_retries ckC4 3 (by decide)).2.2.1 1 (by decide)
     (fun j hj => by
        have hj0 : j = 0 := by omega
        subst hj0; rfl)
     (.obj [("ok", .bool true)]) rfl rfl⟩

/-! ## C1 — emitLoop lemmas -/

theorem truthy_bool (b : Bool) : (Json.bool b).truthy = b := rfl

theorem isWellFormedMsg_elim (fields : List (String × Json))
    (h : isWellFormedMsg (.obj fields) = true) :
    ∃ t b, lookupField fields "title" = some (.str t) ∧
      lookupField fields "body" = some (.str b) ∧ b.isEmpty = false := by
  simp only [isWellFormedMsg, Bool.and_eq_true] at h
  obtain ⟨ht, hb⟩ := h
  cases hlt : lookupField fields "title" with
  | none => rw [hlt] at ht; simp at ht
  | some tv =>
      rw [hlt] at ht
      cases hlb : lookupField fields "body" with
      | none => rw [hlb] at hb; simp at hb
      | some bv =>
          rw [hlb] at hb
          cases tv with
          | str t =>
              cases bv with
              | str b => exact ⟨t, b, rfl, rfl, by simpa using hb⟩
              | null => simp at hb
              | bool x => simp at hb
              | num n => simp at hb
              | arr l => simp at hb
              | obj f2 => simp at hb
          | null => simp at ht
          | bool x => simp at ht
          | num n => simp at ht
          | arr l => simp at ht
          | obj f2 => simp at ht

theorem emitLoop_wf_cons (m : Json) (rest : List Json)
    (h : isWellFormedMsg m = true) :
    emitLoop (m :: rest) =
      ((msgTitle m, msgBody m) :: (emitLoop rest).1, (emitLoop rest).2) := by
  cases m with
  | obj fields =>
      obtain ⟨t, b, hlt, hlb, hbe⟩ := isWellFormedMsg_elim fields h
      simp [emitLoop, pyGet_obj, hlt, hlb, msgTitle, msgBody, Json.truthy, hbe]
  | null => simp [isWellFormedMsg] at h
  | bool x => simp [isWellFormedMsg] at h
  | num n => simp [isWellFormedMsg] at h
  | str s => simp [isWellFormedMsg] at h
  | arr l => simp [isWellFormedMsg] at h

theorem emitLoop_wf (msgs : List Json)
    (h : ∀ m ∈ msgs, isWellFormedMsg m = true) :
    emitLoop msgs = (msgs.map (fun m => (msgTitle m, msgBody m)), none) := by
  induction msgs with
  | nil => rfl
  | cons m rest ih =>
      have hm := h m (List.mem_cons_self m rest)
      have hrest := ih (fun x hx => h x (List.mem_cons_of_mem m hx))
      rw [emitLoop_wf_cons m rest hm, hrest]
      simp

/-! ## C1 -/

/-- C1: if the queue file holds a well-formed JSON list of N >= 1
messages (objects with a string title and non-empty string body), one
poll tick (with no remote messages) leaves the file holding the empty
list and emits exactly N message_received events, the i-th carrying
the i-th message's title and body in file order. -/
theorem C1_queue_drained_and_emitted (msgs : List Json) (hne : msgs ≠ [])
    (hwf : ∀ m ∈ msgs, isWellFormedMsg m = true) :
    AutonomousPoller_poll [] (some (.ok (.arr msgs))) =
      ⟨msgs.map (fun m => (msgTitle m, msgBody m)), some (.ok (.arr [])), none⟩ ∧
    (msgs.map (fun m => (msgTitle m, msgBody m))).length = msgs.length := by
  constructor
  · have hne' : msgs.isEmpty = false := by
      cases msgs with
      | nil => exact absurd rfl hne
      | cons a l => rfl
    simp [AutonomousPoller_poll, pollFileStep, hne', emitLoop_wf msgs hwf, emitLoop]
  · simp

/-- Witness for C1 at a one-message queue. -/
theorem C1_queue_drained_and_emitted_witness :
    ([msgW] ≠ ([] : List Json)) ∧
    (∀ m ∈ [msgW], isWellFormedMsg m = true) ∧
    AutonomousPoller_poll [] (some (.ok (.arr [msgW]))) =
      ⟨[(.str "Heartbeat", .str "All systems go")], some (.ok (.arr [])), none⟩ := by
  refine ⟨by simp, ?_, ?_⟩
  · intro m hm
    rw [List.mem_singleton] at hm
    subst hm
    rfl
  · rw [(C1_queue_drained_and_emitted [msgW] (by simp)
      (fun m hm => by rw [List.mem_singleton] at hm; subst hm; rfl)).1]
    rfl

/-! ## C9 -/

/-- C9 as stated is false: for the persisted configuration
`{"voice_enabled": "yes"}` the original `get_voice_enabled` value is
the string "yes", but after two toggles it is the boolean `True` — the
truthiness survives, the value does not. -/
theorem C9_counterexample :
    toggle_voice cfgYes = .ok cfgYes1 ∧
    toggle_voice cfgYes1 = .ok cfgYes2 ∧
    get_voice_enabled cfgYes = .ok (.str "yes") ∧
    get_voice_enabled cfgYes2 = .ok (.bool true) ∧
    Json.str "yes" ≠ Json.bool true :=
  ⟨rfl, rfl, rfl, rfl, by simp⟩

/-- C9 amended: for every configuration state whose loaded config is
an object (reads succeed) and with both writes succeeding, two
toggles restore the truthiness of `get_voice_enabled`; when the
original value is an actual boolean (in particular whenever the key is
absent and the `True` default applies), the exact value is
restored. -/
theorem C9_double_toggle_truthiness (st : ConfigState) (fields : List (String × Json))
    (hobj : _load_config st = .obj fields) :
    get_after (toggle_twice st) =
      .ok (.bool ((lookupField fields "voice_enabled").getD (.bool true)).truthy) ∧
    get_voice_enabled st = .ok ((lookupField fields "voice_enabled").getD (.bool true)) ∧
    ((∃ b, (lookupField fields "voice_enabled").getD (.bool true) = .bool b) →
      get_after (toggle_twice st) = get_voice_enabled st) := by
  have hget : get_voice_enabled st =
      .ok ((lookupField fields "voice_enabled").getD (.bool true)) := by
    rw [get_voice_enabled, hobj, pyGet_obj]
  have htog1 : toggle_voice st = .ok (some (.ok (.obj (setField fields "voice_enabled"
      (.bool (!((lookupField fields "voice_enabled").getD (.bool true)).truthy)))))) := by
    simp [toggle_voice, hget, set_voice_enabled, hobj]
  have hget1 : get_voice_enabled (some (.ok (.obj (setField fields "voice_enabled"
      (.bool (!((lookupField fields "voice_enabled").getD (.bool true)).truthy)))))) =
      .ok (.bool (!((lookupField fields "voice_enabled").getD (.bool true)).truthy)) := by
    simp [get_voice_enabled, _load_config, pyGet_obj, lookupField_setField]
  have htog2 : toggle_voice (some (.ok (.obj (setField fields "voice_enabled"
      (.bool (!((lookupField fields "voice_enabled").getD (.bool true)).truthy)))))) =
      .ok (some (.ok (.obj (setField (setField fields "voice_enabled"
        (.bool (!((lookupField fields "voice_enabled").getD (.bool true)).truthy)))
        "voice_enabled"
        (.bool ((lookupField fields "voice_enabled").getD (.bool true)).truthy))))) := by
    simp only [toggle_voice, hget1, set_voice_enabled, _load_config, truthy_bool,
               Bool.not_not, if_true]
  have hfinal : get_after (toggle_twice st) =
      .ok (.bool ((lookupField fields "voice_enabled").getD (.bool true)).truthy) := by
    simp [toggle_twice, htog1, htog2, get_after, get_voice_enabled, _load_config,
          pyGet_obj, lookupField_setField]
  refine ⟨hfinal, hget, ?_⟩
  rintro ⟨b, hb⟩
  rw [hfinal, hget, hb]
  simp [truthy_bool]

/-- Witness for the amended C9 at the absent-config state. -/
theorem C9_double_toggle_truthiness_witness :
    _load_config (none : ConfigState) = .obj [] ∧
    get_after (toggle_twice (none : ConfigState)) = .ok (.bool true) ∧
    get_voice_enabled (none : ConfigState) = .ok (.bool true) := by
  refine ⟨rfl, ?_, (C9_double_toggle_truthiness none [] rfl).2.1⟩
  have h := (C9_double_toggle_truthiness none [] rfl).1
  simpa [lookupField, Json.truthy] using h

end AlexTerminal
